import Mathlib

/-!
Verification of the review-selection and session-state engine of a study-aid
application (a single-file Streamlit app, `app.py`), shallowly embedded in Lean.

The embedding covers:

* the two store tables (`questions`, `user_progress`) as structures;
* the "Estudiar" filter pipeline: topic filter, type filter, and the
  only-failed filter built from `review_ids = failed_ids - success_ids`
  with its fallback to `failed_ids` when the difference is empty;
* the session cursor: the `q_index` range clamp, the Anterior/Siguiente
  buttons, the flashcard auto-advance, the jump widget, and the
  initialisation of `q_index` from the URL query parameter;
* the mastery updater: `save_progress`, the quiz exact-match check, the
  quiz options guard, and the derived statistics of the "Estadísticas" mode;
* the model-fallback ladder of `generate_content_from_files`;
* the danger-zone wipe implemented as two `delete().neq(col, "---")` calls.
-/

namespace StudyAI

/-- Row of the `questions` table: `questions(id, topic, type, question, answer,
options)`. `options` is nullable: `null` (here `none`) for non-quiz types. -/
structure Question where
  id : Nat
  topic : String
  type : String
  question : String
  answer : String
  options : Option (List String)
deriving Repr, DecidableEq

/-- Row of the `user_progress` table, as inserted by `save_progress(user, q_id,
is_correct, user_ans)`. -/
structure ProgressEntry where
  username : String
  question_id : Nat
  is_correct : Bool
  user_answer : String
deriving Repr, DecidableEq

/-- Ids with at least one failed attempt:
`failed_ids = set(p['question_id'] for p in progress_res.data if not p['is_correct'])`. -/
def failed_ids (progress : List ProgressEntry) : Finset Nat :=
  ((progress.filter fun p => !p.is_correct).map fun p => p.question_id).toFinset

/-- Ids with at least one successful attempt:
`success_ids = set(p['question_id'] for p in progress_res.data if p['is_correct'])`. -/
def success_ids (progress : List ProgressEntry) : Finset Nat :=
  ((progress.filter fun p => p.is_correct).map fun p => p.question_id).toFinset

/-- Mirrors `review_ids = failed_ids - success_ids` followed by
`if not review_ids: review_ids = failed_ids`. -/
def review_ids (progress : List ProgressEntry) : Finset Nat :=
  if failed_ids progress \ success_ids progress = ∅ then failed_ids progress
  else failed_ids progress \ success_ids progress

/-- Topic filter: keep everything for the sentinel "Todos los temas" (here
`none`), else `[q for q in all_questions if q.get('topic') == selected_topic]`. -/
def filterByTopic (selected_topic : Option String) (qs : List Question) : List Question :=
  match selected_topic with
  | none => qs
  | some t => qs.filter fun q => q.topic == t

/-- Type filter: `if selected_type: db_questions = [q for q in db_questions if
q.get('type') == selected_type]`. -/
def filterByType (selected_type : Option String) (qs : List Question) : List Question :=
  match selected_type with
  | none => qs
  | some t => qs.filter fun q => q.type == t

/-- Only-failed filter: `if only_failed: db_questions = [q for q in db_questions
if q['id'] in review_ids]`. -/
def filterOnlyFailed (only_failed : Bool) (progress : List ProgressEntry)
    (qs : List Question) : List Question :=
  if only_failed then qs.filter (fun q => decide (q.id ∈ review_ids progress)) else qs

/-- The whole "Estudiar" selection pipeline, in source order: topic filter,
then type filter, then only-failed filter. -/
def selectQuestions (all_questions : List Question) (selected_topic selected_type : Option String)
    (only_failed : Bool) (progress : List ProgressEntry) : List Question :=
  filterOnlyFailed only_failed progress
    (filterByType selected_type (filterByTopic selected_topic all_questions))

theorem mem_failed_ids {progress : List ProgressEntry} {i : Nat} :
    i ∈ failed_ids progress ↔ ∃ p ∈ progress, p.question_id = i ∧ p.is_correct = false := by
  simp only [failed_ids, List.mem_toFinset, List.mem_map, List.mem_filter, Bool.not_eq_true']
  constructor
  · rintro ⟨p, ⟨hp, hc⟩, hid⟩
    exact ⟨p, hp, hid, hc⟩
  · rintro ⟨p, hp, hid, hc⟩
    exact ⟨p, ⟨hp, hc⟩, hid⟩

theorem mem_success_ids {progress : List ProgressEntry} {i : Nat} :
    i ∈ success_ids progress ↔ ∃ p ∈ progress, p.question_id = i ∧ p.is_correct = true := by
  simp only [success_ids, List.mem_toFinset, List.mem_map, List.mem_filter]
  constructor
  · rintro ⟨p, ⟨hp, hc⟩, hid⟩
    exact ⟨p, hp, hid, hc⟩
  · rintro ⟨p, hp, hid, hc⟩
    exact ⟨p, ⟨hp, hc⟩, hid⟩

theorem mem_filterOnlyFailed {progress : List ProgressEntry} {qs : List Question} {q : Question} :
    q ∈ filterOnlyFailed true progress qs ↔ q ∈ qs ∧ q.id ∈ review_ids progress := by
  simp [filterOnlyFailed, List.mem_filter]

/-- C1: with `only_failed` on, the selection keeps exactly the questions whose
id lies in `review_ids = failed_ids \ success_ids`, except that when that
difference is empty the full `failed_ids` set is used; a question that has a
successful attempt and no failed attempt is never selected.  The first two
conjuncts fix what `failed_ids` / `success_ids` mean in terms of the raw
progress log. -/
theorem only_failed_selection (progress : List ProgressEntry) (qs : List Question) (q : Question) :
    (q.id ∈ failed_ids progress ↔ ∃ p ∈ progress, p.question_id = q.id ∧ p.is_correct = false) ∧
    (q.id ∈ success_ids progress ↔ ∃ p ∈ progress, p.question_id = q.id ∧ p.is_correct = true) ∧
    (failed_ids progress \ success_ids progress ≠ ∅ →
      (q ∈ filterOnlyFailed true progress qs ↔
        q ∈ qs ∧ q.id ∈ failed_ids progress \ success_ids progress)) ∧
    (failed_ids progress \ success_ids progress = ∅ →
      (q ∈ filterOnlyFailed true progress qs ↔ q ∈ qs ∧ q.id ∈ failed_ids progress)) ∧
    (q.id ∈ success_ids progress → q.id ∉ failed_ids progress →
      q ∉ filterOnlyFailed true progress qs) := by
  refine ⟨mem_failed_ids, mem_success_ids, ?_, ?_, ?_⟩
  · intro hne
    rw [mem_filterOnlyFailed, review_ids, if_neg hne]
  · intro he
    rw [mem_filterOnlyFailed, review_ids, if_pos he]
  · intro _ hnf hmem
    rcases mem_filterOnlyFailed.mp hmem with ⟨-, hrev⟩
    rw [review_ids] at hrev
    split at hrev
    · exact hnf hrev
    · exact hnf (Finset.mem_sdiff.mp hrev).1

/-- C2: the selected study list is a subsequence of the input list (every
selected question occurs in the input, nothing is duplicated or created, and
relative order is preserved), for every combination of filters. -/
theorem select_sublist (all_questions : List Question) (selected_topic selected_type : Option String)
    (only_failed : Bool) (progress : List ProgressEntry) :
    (selectQuestions all_questions selected_topic selected_type only_failed progress).Sublist
      all_questions ∧
    ∀ q : Question,
      (selectQuestions all_questions selected_topic selected_type only_failed progress).count q ≤
        all_questions.count q := by
  have h1 : (filterByTopic selected_topic all_questions).Sublist all_questions := by
    cases selected_topic with
    | none => exact List.Sublist.refl _
    | some t => exact List.filter_sublist _
  have h2 : (filterByType selected_type (filterByTopic selected_topic all_questions)).Sublist
      (filterByTopic selected_topic all_questions) := by
    cases selected_type with
    | none => exact List.Sublist.refl _
    | some t => exact List.filter_sublist _
  have h3 : (selectQuestions all_questions selected_topic selected_type only_failed
      progress).Sublist
      (filterByType selected_type (filterByTopic selected_topic all_questions)) := by
    unfold selectQuestions filterOnlyFailed
    cases only_failed with
    | false => exact List.Sublist.refl _
    | true => exact List.filter_sublist _
  have h := (h3.trans h2).trans h1
  exact ⟨h, fun q => h.count_le q⟩

/-- Range clamp run on every rerun before the list is dereferenced:
`if st.session_state.q_index >= len(db_questions): st.session_state.q_index = 0`
then `if st.session_state.q_index < 0: st.session_state.q_index = 0`. -/
def clampIdx (len : Nat) (i : Int) : Int :=
  let i1 := if i ≥ (len : Int) then 0 else i
  if i1 < 0 then 0 else i1

/-- Siguiente button (`disabled=(st.session_state.q_index >= len(db_questions) - 1)`,
else `q_index += 1`) and the flashcard auto-advance
(`if st.session_state.q_index < len(db_questions) - 1: q_index += 1`). -/
def nextIdx (len : Nat) (i : Int) : Int :=
  if i < (len : Int) - 1 then i + 1 else i

/-- Anterior button: `disabled=(st.session_state.q_index == 0)`, else `q_index -= 1`. -/
def prevIdx (i : Int) : Int :=
  if i = 0 then i else i - 1

/-- Jump widget: `st.number_input(..., min_value=1, max_value=len(db_questions))`
constrains the entered value to `[1, len]`, then `q_index = go_to - 1`. -/
def jumpIdx (len : Nat) (go_to : Nat) : Int :=
  ((if go_to < 1 then 1 else if len < go_to then len else go_to : Nat) : Int) - 1

/-- A user-driven cursor operation in the "Estudiar" view. -/
inductive CursorOp where
  | next : CursorOp
  | prev : CursorOp
  | jump : Nat → CursorOp
  | clamp : CursorOp
deriving Repr, DecidableEq

/-- Effect of one cursor operation on `q_index`. -/
def applyOp (len : Nat) (i : Int) : CursorOp → Int
  | .next => nextIdx len i
  | .prev => prevIdx i
  | .jump n => jumpIdx len n
  | .clamp => clampIdx len i

theorem clampIdx_bounds {len : Nat} (h : 0 < len) (i : Int) :
    0 ≤ clampIdx len i ∧ clampIdx len i < len := by
  simp only [clampIdx]
  split_ifs <;> omega

theorem applyOp_bounds {len : Nat} (h : 0 < len) {i : Int} (h0 : 0 ≤ i) (h1 : i < len)
    (op : CursorOp) : 0 ≤ applyOp len i op ∧ applyOp len i op < len := by
  cases op with
  | next =>
    simp only [applyOp, nextIdx]
    split_ifs <;> omega
  | prev =>
    simp only [applyOp, prevIdx]
    split_ifs <;> omega
  | jump n =>
    simp only [applyOp, jumpIdx]
    split_ifs <;> omega
  | clamp => exact clampIdx_bounds h i

/-- C3: starting from the clamp the script applies on every recomputation, any
sequence of cursor operations leaves `q_index` a valid index of the non-empty
filtered list; the clamp itself resets any out-of-range index to 0 before the
dereference. -/
theorem cursor_invariant (len : Nat) (h : 0 < len) (ops : List CursorOp) (i : Int) :
    (0 ≤ ops.foldl (applyOp len) (clampIdx len i) ∧
      ops.foldl (applyOp len) (clampIdx len i) < len) ∧
    ((len : Int) ≤ i → clampIdx len i = 0) ∧
    (i < 0 → clampIdx len i = 0) := by
  refine ⟨?_, ?_, ?_⟩
  · have start := clampIdx_bounds h i
    generalize clampIdx len i = j at start
    induction ops generalizing j with
    | nil => exact start
    | cons op rest ih =>
      exact ih _ (applyOp_bounds h start.1 start.2 op)
  · intro hge
    simp only [clampIdx]
    split_ifs <;> omega
  · intro hlt
    simp only [clampIdx]
    split_ifs <;> omega

/-- Closed instance of `cursor_invariant`: list of length 2, initial URL index 5
(out of range, clamped to 0), then a run of navigation operations. -/
theorem cursor_invariant_witness :
    (0 ≤ [CursorOp.next, CursorOp.jump 2, CursorOp.prev,
        CursorOp.clamp].foldl (applyOp 2) (clampIdx 2 5) ∧
      [CursorOp.next, CursorOp.jump 2, CursorOp.prev,
        CursorOp.clamp].foldl (applyOp 2) (clampIdx 2 5) < 2) ∧
    clampIdx 2 5 = 0 ∧ clampIdx 2 (-3) = 0 :=
  ⟨(cursor_invariant 2 (by decide) [CursorOp.next, CursorOp.jump 2, CursorOp.prev,
      CursorOp.clamp] 5).1,
    (cursor_invariant 2 (by decide) [] 5).2.1 (by decide),
    (cursor_invariant 2 (by decide) [] (-3)).2.2 (by decide)⟩

/-- C7: on a non-empty list, `next` is a saturating increment (no-op at the
last index, +1 elsewhere) and `prev` a saturating decrement (no-op at 0,
-1 elsewhere). -/
theorem nav_saturating (len : Nat) (i : Int) (hlen : 0 < len) (_h0 : 0 ≤ i) (_h1 : i < len) :
    (i = (len : Int) - 1 → nextIdx len i = i) ∧
    (i < (len : Int) - 1 → nextIdx len i = i + 1) ∧
    (i = 0 → prevIdx i = i) ∧
    (0 < i → prevIdx i = i - 1) := by
  have hl : (0 : Int) < len := by exact_mod_cast hlen
  refine ⟨?_, ?_, ?_, ?_⟩ <;>
    · intro hi
      simp only [nextIdx, prevIdx]
      split_ifs <;> omega

/-- Closed instance of `nav_saturating` on a 3-element list: saturation at both
ends and the ±1 steps in the interior. -/
theorem nav_saturating_witness :
    nextIdx 3 2 = 2 ∧ nextIdx 3 1 = 2 ∧ prevIdx 0 = 0 ∧ prevIdx 1 = 0 :=
  ⟨(nav_saturating 3 2 (by decide) (by decide) (by decide)).1 (by decide),
    (nav_saturating 3 1 (by decide) (by decide) (by decide)).2.1 (by decide),
    (nav_saturating 3 0 (by decide) (by decide) (by decide)).2.2.1 (by decide),
    (nav_saturating 3 1 (by decide) (by decide) (by decide)).2.2.2 (by decide)⟩

/-- Decidable equality of `Except` results, used to evaluate the fallible
initialisation on concrete inputs. -/
instance {α β : Type} [DecidableEq α] [DecidableEq β] : DecidableEq (Except α β) := fun a b =>
  match a, b with
  | .ok m, .ok n =>
    if h : m = n then .isTrue (congrArg Except.ok h)
    else .isFalse fun he => h (Except.ok.inj he)
  | .error e1, .error e2 =>
    if h : e1 = e2 then .isTrue (congrArg Except.error h)
    else .isFalse fun he => h (Except.error.inj he)
  | .ok _, .error _ => .isFalse fun he => Except.noConfusion he
  | .error _, .ok _ => .isFalse fun he => Except.noConfusion he

/-- Start code points of the 66 runs of Unicode decimal digits (category Nd)
in CPython's Unicode tables: each run is ten consecutive code points whose
decimal values are 0 through 9 in order.  These are exactly the characters
`int()` accepts as base-10 digits. -/
def decimalRunStarts : List Nat :=
  [0x30, 0x660, 0x6F0, 0x7C0, 0x966, 0x9E6, 0xA66, 0xAE6, 0xB66, 0xBE6, 0xC66,
   0xCE6, 0xD66, 0xDE6, 0xE50, 0xED0, 0xF20, 0x1040, 0x1090, 0x17E0, 0x1810,
   0x1946, 0x19D0, 0x1A80, 0x1A90, 0x1B50, 0x1BB0, 0x1C40, 0x1C50, 0xA620,
   0xA8D0, 0xA900, 0xA9D0, 0xA9F0, 0xAA50, 0xABF0, 0xFF10, 0x104A0, 0x10D30,
   0x11066, 0x110F0, 0x11136, 0x111D0, 0x112F0, 0x11450, 0x114D0, 0x11650,
   0x116C0, 0x11730, 0x118E0, 0x11950, 0x11C50, 0x11D50, 0x11DA0, 0x16A60,
   0x16AC0, 0x16B50, 0x1D7CE, 0x1D7D8, 0x1D7E2, 0x1D7EC, 0x1D7F6, 0x1E140,
   0x1E2F0, 0x1E950, 0x1FBF0]

/-- Code-point ranges `(start, count)` of the 128 characters that carry the
Unicode digit property without being decimal digits (superscripts such as "²",
subscripts, Ethiopic digits, circled and parenthesized digits, ...), per
CPython's Unicode tables: `str.isdigit()` accepts them but `int()` raises
`ValueError` on them. -/
def digitOnlyRanges : List (Nat × Nat) :=
  [(0xB2, 2), (0xB9, 1), (0x1369, 9), (0x19DA, 1), (0x2070, 1), (0x2074, 6),
   (0x2080, 10), (0x2460, 9), (0x2474, 9), (0x2488, 9), (0x24EA, 1),
   (0x24F5, 9), (0x24FF, 1), (0x2776, 9), (0x2780, 9), (0x278A, 9),
   (0x10A40, 4), (0x10E60, 9), (0x11052, 9), (0x1F100, 11)]

/-- Whether `c` is a Unicode decimal digit (category Nd), the class of
characters `int()` parses. -/
def pyCharIsDecimal (c : Char) : Bool :=
  decimalRunStarts.any fun s => decide (s ≤ c.toNat ∧ c.toNat < s + 10)

/-- Decimal value of a Unicode decimal digit: its offset in its run
(`unicodedata.decimal`); 0 for a non-decimal character, which never reaches
this computation. -/
def pyCharDecimalVal (c : Char) : Nat :=
  match decimalRunStarts.find? (fun s => decide (s ≤ c.toNat ∧ c.toNat < s + 10)) with
  | some s => c.toNat - s
  | none => 0

/-- Python `c.isdigit()` for a single character: a decimal digit or a
digit-property character. -/
def pyCharIsDigit (c : Char) : Bool :=
  pyCharIsDecimal c ||
    digitOnlyRanges.any fun r => decide (r.1 ≤ c.toNat ∧ c.toNat < r.1 + r.2)

/-- Python `str.isdigit()`: true iff the string is non-empty and every
character is a digit.  Unlike an ASCII test, this accepts "٣" and "²". -/
def pyIsDigit (s : String) : Bool :=
  !s.isEmpty && s.data.all pyCharIsDigit

/-- Python `int(s)` on the strings that can reach it under the `isdigit` guard
of the call site (no sign, whitespace or underscore can occur there, since
those characters are not digits): it succeeds exactly when every character is
a Unicode decimal digit, giving the base-10 value of the decimal values, and
raises `ValueError` when some digit-property character is not decimal (for
example `int("²")`). -/
def pyInt (s : String) : Except String Nat :=
  if s.data.all pyCharIsDecimal then
    Except.ok (s.data.foldl (fun acc c => acc * 10 + pyCharDecimalVal c) 0)
  else Except.error "ValueError"

/-- Initialisation of the cursor from the URL:
`url_index = params.get("q", "0")` then
`st.session_state.q_index = int(url_index) if url_index.isdigit() else 0`.
An uncaught `ValueError` from `int` aborts the script run, modelled as the
error case of `Except`. -/
def initQIndex (urlVal : Option String) : Except String Nat :=
  let url_index := urlVal.getD "0"
  if pyIsDigit url_index then pyInt url_index else Except.ok 0

/-- C9 as stated is false at reachable URL values: "²" is not a string of
decimal digits (its only character is no ASCII digit), yet initialisation does
not yield cursor 0 — `"²".isdigit()` passes the guard and `int("²")` raises
`ValueError`; and "٣" yields cursor 3, not 0. -/
theorem qindex_init_unicode_counterexample :
    ("²".data.all Char.isDigit) = false ∧
    initQIndex (some "²") = Except.error "ValueError" ∧
    initQIndex (some "²") ≠ Except.ok 0 ∧
    ("٣".data.all Char.isDigit) = false ∧
    initQIndex (some "٣") = Except.ok 3 := by
  decide

/-- C9 amended: the absent-value default and any value failing Python's
`isdigit` test (such as "-3" and non-numeric text) yield cursor 0; a string of
Unicode decimal digits is parsed as the starting index (which the clamp then
bounds against any non-empty list); and a value passing `isdigit` that
contains a non-decimal digit character, such as "²", raises `ValueError` and
aborts the script run instead of yielding 0. -/
theorem qindex_init_from_url :
    initQIndex none = Except.ok 0 ∧
    (∀ s, pyIsDigit s = false → initQIndex (some s) = Except.ok 0) ∧
    (∀ s, pyIsDigit s = true → s.data.all pyCharIsDecimal = true →
      initQIndex (some s) =
        Except.ok (s.data.foldl (fun acc c => acc * 10 + pyCharDecimalVal c) 0)) ∧
    (∀ s, pyIsDigit s = true → s.data.all pyCharIsDecimal = false →
      initQIndex (some s) = Except.error "ValueError") ∧
    pyIsDigit "-3" = false ∧ initQIndex (some "-3") = Except.ok 0 ∧
    initQIndex (some "abc") = Except.ok 0 ∧
    initQIndex (some "12") = Except.ok 12 ∧
    initQIndex (some "٣") = Except.ok 3 ∧
    initQIndex (some "²") = Except.error "ValueError" ∧
    (∀ v n len, 0 < len → initQIndex v = Except.ok n →
      0 ≤ clampIdx len (n : Int) ∧ clampIdx len (n : Int) < len) := by
  refine ⟨by decide, ?_, ?_, ?_, by decide, by decide, by decide, by decide, by decide,
    by decide, ?_⟩
  · intro s hs
    simp [initQIndex, hs]
  · intro s hs hd
    simp [initQIndex, hs, pyInt, hd]
  · intro s hs hd
    simp [initQIndex, hs, pyInt, hd]
  · intro v n len hlen _
    exact clampIdx_bounds hlen _

/-- The correctness bit of a quiz submission:
`is_correct = (selected_ans == q['answer'])`. -/
def quizIsCorrect (q : Question) (selected_ans : String) : Bool :=
  selected_ans == q.answer

/-- Mirrors `save_progress(user, q_id, is_correct, user_ans)`: the row inserted
into `user_progress`. -/
def save_progress (user : String) (q_id : Nat) (is_correct : Bool) (user_ans : String) :
    ProgressEntry :=
  ⟨user, q_id, is_correct, user_ans⟩

/-- Quiz submission: `save_progress(st.session_state.user, q['id'], is_correct,
selected_ans)` with `is_correct = (selected_ans == q['answer'])`. -/
def submitQuiz (user : String) (q : Question) (selected_ans : String) : ProgressEntry :=
  save_progress user q.id (quizIsCorrect q selected_ans) selected_ans

/-- Concrete quiz question used by the case-sensitivity scenario. -/
def parisQuestion : Question :=
  ⟨1, "Geography", "quiz", "Capital of France?", "Paris",
    some ["Paris", "paris", "London", "Berlin"]⟩

/-- C5: recorded quiz correctness is exact, case-sensitive string equality of
the selected option with the stored answer; stored answer "Paris" with chosen
option "paris" is recorded as incorrect. -/
theorem quiz_exact_match (user : String) (q : Question) (selected_ans : String) :
    ((submitQuiz user q selected_ans).is_correct = true ↔ selected_ans = q.answer) ∧
    (submitQuiz user parisQuestion "paris").is_correct = false ∧
    (submitQuiz user parisQuestion "Paris").is_correct = true ∧
    (submitQuiz user q selected_ans).user_answer = selected_ans ∧
    (submitQuiz user q selected_ans).question_id = q.id := by
  refine ⟨?_, rfl, rfl, rfl, rfl⟩
  simp [submitQuiz, save_progress, quizIsCorrect]

/-- Python truthiness of `opts` in `if opts:`: `None` and `[]` are falsy,
a non-empty list is truthy. -/
def optsTruthy (opts : Option (List String)) : Bool :=
  match opts with
  | none => false
  | some l => !l.isEmpty

/-- What the quiz branch renders: the answer widget plus Comprobar button, or
the warning `"Esta pregunta no tiene opciones configuradas."`. -/
inductive QuizView where
  | answerUI : QuizView
  | noOptionsWarning : QuizView
deriving Repr, DecidableEq

/-- View chosen by the quiz branch: `if opts: ... else: st.warning(...)`. -/
def quizView (q : Question) : QuizView :=
  if optsTruthy q.options then .answerUI else .noOptionsWarning

/-- Progress rows appended by one rendering of the quiz branch: only inside
`if opts:` and only when the Comprobar button is pressed does `save_progress`
run. -/
def quizStepEntries (user : String) (q : Question) (selected_ans : String) (pressed : Bool) :
    List ProgressEntry :=
  if optsTruthy q.options then
    if pressed then [submitQuiz user q selected_ans] else []
  else []

/-- C10: a quiz question whose `options` is null or an empty list renders the
warning view (display does not fail) and can never append a progress row,
whatever is selected or pressed. -/
theorem quiz_no_options_guard (user selected_ans : String) (q : Question) (pressed : Bool)
    (h : q.options = none ∨ q.options = some []) :
    quizStepEntries user q selected_ans pressed = [] ∧ quizView q = .noOptionsWarning := by
  have ht : optsTruthy q.options = false := by
    rcases h with h | h <;> simp [h, optsTruthy]
  exact ⟨by simp [quizStepEntries, ht], by simp [quizView, ht]⟩

/-- Closed instance of `quiz_no_options_guard` at a quiz question with null
options and one with an empty options list. -/
theorem quiz_no_options_guard_witness :
    (quizStepEntries "u" ⟨2, "T", "quiz", "q?", "a", none⟩ "a" true = [] ∧
      quizView ⟨2, "T", "quiz", "q?", "a", none⟩ = .noOptionsWarning) ∧
    quizStepEntries "u" ⟨3, "T", "quiz", "q?", "a", some []⟩ "a" true = [] :=
  ⟨quiz_no_options_guard "u" "a" ⟨2, "T", "quiz", "q?", "a", none⟩ true (Or.inl rfl),
    (quiz_no_options_guard "u" "a" ⟨3, "T", "quiz", "q?", "a", some []⟩ true (Or.inr rfl)).1⟩

/-- Metrics of the "Estadísticas" mode, computed from the user's progress rows:
`total = len(user_data)`, `correct = sum(1 for x in user_data if
x.get('is_correct'))`, `incorrect = total - correct`,
`accuracy = (correct / total) * 100 if total > 0 else 0`.  The float division
is modelled exactly over `ℚ`. -/
def userStats (user_data : List ProgressEntry) : Nat × Nat × Nat × ℚ :=
  let total := user_data.length
  let correct := (user_data.filter fun x => x.is_correct).length
  let incorrect := total - correct
  let accuracy : ℚ := if total > 0 then ((correct : ℚ) / (total : ℚ)) * 100 else 0
  (total, correct, incorrect, accuracy)

/-- C8: statistics are derived from the progress log: total counts the user's
entries, correct counts those with `is_correct`, accuracy is
`correct / total * 100` with the `total = 0` case defined as 0; ten entries
with seven correct give accuracy 70. -/
theorem stats_derived (user_data : List ProgressEntry) :
    (userStats user_data).1 = user_data.length ∧
    (userStats user_data).2.1 = user_data.countP (fun x => x.is_correct) ∧
    (user_data.length = 0 → (userStats user_data).2.2.2 = 0) ∧
    (0 < user_data.length →
      (userStats user_data).2.2.2 =
        ((userStats user_data).2.1 : ℚ) / (user_data.length : ℚ) * 100) ∧
    (userStats (List.replicate 7 (save_progress "u" 1 true "a") ++
      List.replicate 3 (save_progress "u" 2 false "b"))).2.2.2 = 70 := by
  refine ⟨rfl, ?_, ?_, ?_, ?_⟩
  · simp [userStats, List.countP_eq_length_filter]
  · intro h
    simp [userStats, h]
  · intro h
    simp [userStats, h]
  · norm_num [userStats, save_progress, List.filter, List.replicate]

/-- One parsed element of the generation response JSON:
`{type, question, answer, options?}` (no id yet — ids are assigned by the
store on insert). -/
structure RawQuestion where
  type : String
  question : String
  answer : String
  options : Option (List String)
deriving Repr, DecidableEq

/-- Outcome of one `client.models.generate_content(...)` call followed by
`json.loads(response.text)`: a successful parse, an exception whose message
contains "429" or "RESOURCE_EXHAUSTED", or any other exception (404, parse
error, ...). -/
inductive Outcome where
  | success : List RawQuestion → Outcome
  | quotaError : Outcome
  | otherError : Outcome
deriving Repr, DecidableEq

/-- Fixed preference order of `generate_content_from_files`:
`models_to_try = ['gemini-2.5-flash-lite', 'gemini-2.0-flash-lite', 'gemini-2.0-flash']`. -/
def models_to_try : List String :=
  ["gemini-2.5-flash-lite", "gemini-2.0-flash-lite", "gemini-2.0-flash"]

/-- One iteration of the model loop for `model_name`: try the call; on a quota
error wait 5 s and retry the same model exactly once; on any other failure make
no retry.  Returns the attempts made as `(model, attempt number)` pairs and the
parsed result when one attempt succeeded. -/
def tryModel (attempt : String → Nat → Outcome) (model_name : String) :
    List (String × Nat) × Option (List RawQuestion) :=
  match attempt model_name 0 with
  | .success qs => ([(model_name, 0)], some qs)
  | .quotaError =>
    match attempt model_name 1 with
    | .success qs => ([(model_name, 0), (model_name, 1)], some qs)
    | .quotaError => ([(model_name, 0), (model_name, 1)], none)
    | .otherError => ([(model_name, 0), (model_name, 1)], none)
  | .otherError => ([(model_name, 0)], none)

/-- Result of the whole ladder: the returned list (`[]` when everything
failed), the trace of attempts, and whether the terminal
`st.error("No se pudo generar contenido con ninguno de los modelos
probados.")` was reached. -/
structure LadderResult where
  result : List RawQuestion
  attempts : List (String × Nat)
  terminalError : Bool
deriving Repr, DecidableEq

/-- Mirrors the `for model_name in models_to_try:` loop: return at the first
successful parse, `continue` past failed candidates, and fall out of the loop
to the terminal error and `return []`. -/
def runLadder (attempt : String → Nat → Outcome) : List String → LadderResult
  | [] => ⟨[], [], true⟩
  | m :: rest =>
    match tryModel attempt m with
    | (as, some qs) => ⟨qs, as, false⟩
    | (as, none) =>
      let r := runLadder attempt rest
      ⟨r.result, as ++ r.attempts, r.terminalError⟩

/-- Ladder portion of `generate_content_from_files`, over the fixed model
list. -/
def generate_content_from_files (attempt : String → Nat → Outcome) : LadderResult :=
  runLadder attempt models_to_try

theorem runLadder_all_fail (attempt : String → Nat → Outcome) (ms : List String)
    (h : ∀ m ∈ ms, (tryModel attempt m).2 = none) :
    runLadder attempt ms = ⟨[], (ms.map fun m => (tryModel attempt m).1).flatten, true⟩ := by
  induction ms with
  | nil => rfl
  | cons m rest ih =>
    have hm : (tryModel attempt m).2 = none := h m (List.mem_cons_self m rest)
    have hrest := ih fun m' hm' => h m' (List.mem_cons_of_mem m hm')
    rcases hAs : tryModel attempt m with ⟨as, r⟩
    rw [hAs] at hm
    simp only at hm
    subst hm
    simp [runLadder, hAs, hrest]

theorem runLadder_first_success (attempt : String → Nat → Outcome) (pre : List String)
    (m : String) (post : List String) (qs : List RawQuestion)
    (hpre : ∀ m' ∈ pre, (tryModel attempt m').2 = none)
    (hm : (tryModel attempt m).2 = some qs) :
    (runLadder attempt (pre ++ m :: post)).result = qs ∧
    (runLadder attempt (pre ++ m :: post)).terminalError = false := by
  induction pre with
  | nil =>
    rcases hAs : tryModel attempt m with ⟨as, r⟩
    rw [hAs] at hm
    simp only at hm
    subst hm
    simp [runLadder, hAs]
  | cons p pre' ih =>
    have hp : (tryModel attempt p).2 = none := hpre p (List.mem_cons_self p pre')
    have hrec := ih fun m' hm' => hpre m' (List.mem_cons_of_mem p hm')
    rcases hAs : tryModel attempt p with ⟨as, r⟩
    rw [hAs] at hp
    simp only at hp
    subst hp
    simp [runLadder, hAs, hrec]

/-- C4: in the fallback ladder, a quota-exhaustion failure causes exactly one
retry of the same model before moving on; any other failure moves on with no
retry; the first successful parse is returned; with every candidate exhausted
the single terminal failure is surfaced and the empty list is returned. -/
theorem fallback_ladder_policy (attempt : String → Nat → Outcome) :
    (∀ m, attempt m 0 = .quotaError → (tryModel attempt m).1 = [(m, 0), (m, 1)]) ∧
    (∀ m, attempt m 0 = .otherError → tryModel attempt m = ([(m, 0)], none)) ∧
    (∀ m qs, attempt m 0 = .success qs → tryModel attempt m = ([(m, 0)], some qs)) ∧
    (∀ pre m post qs, (∀ m' ∈ pre, (tryModel attempt m').2 = none) →
      (tryModel attempt m).2 = some qs →
      (runLadder attempt (pre ++ m :: post)).result = qs ∧
      (runLadder attempt (pre ++ m :: post)).terminalError = false) ∧
    ((∀ m ∈ models_to_try, (tryModel attempt m).2 = none) →
      (generate_content_from_files attempt).result = [] ∧
      (generate_content_from_files attempt).terminalError = true) := by
  refine ⟨?_, ?_, ?_, runLadder_first_success attempt, ?_⟩
  · intro m h
    cases h2 : attempt m 1 <;> simp [tryModel, h, h2]
  · intro m h
    simp [tryModel, h]
  · intro m qs h
    simp [tryModel, h]
  · intro h
    rw [generate_content_from_files, runLadder_all_fail attempt models_to_try h]
    exact ⟨rfl, rfl⟩

/-- Model of PostgREST `table.delete().neq(col, v)`: it deletes exactly the
rows whose column value differs from `v`, so the rows whose column value equals
`v` remain in the table. -/
def deleteNeq {α : Type} (col : α → String) (v : String) (rows : List α) : List α :=
  rows.filter fun r => col r == v

/-- Zona de Peligro wipe:
`supabase.table("user_progress").delete().neq("username", "---").execute()`
followed by
`supabase.table("questions").delete().neq("topic", "---").execute()`;
the pair is the remaining contents of both tables. -/
def fullWipe (progress_rows : List ProgressEntry) (question_rows : List Question) :
    List ProgressEntry × List Question :=
  (deleteNeq (fun p => p.username) "---" progress_rows,
   deleteNeq (fun q => q.topic) "---" question_rows)

/-- C6 evaluated at the failing input: a progress row with username `"---"` and
a question with topic `"---"` survive the wipe, while rows with any other
username or topic are deleted — the wipe is not unconditional. -/
theorem full_wipe_spares_sentinel_rows :
    fullWipe [⟨"---", 1, false, "x"⟩] [⟨5, "---", "quiz", "q?", "a", none⟩] =
      ([⟨"---", 1, false, "x"⟩], [⟨5, "---", "quiz", "q?", "a", none⟩]) ∧
    (fullWipe [⟨"---", 1, false, "x"⟩] []).1 ≠ [] ∧
    fullWipe [⟨"alice", 1, false, "x"⟩, ⟨"bob", 2, true, "y"⟩]
      [⟨5, "Math", "quiz", "q?", "a", none⟩] = ([], []) := by
  decide

end StudyAI
